import Mathlib

/-!
Verification development for the HVM I/O request-forwarding layer (io.c).

The definitions below are a shallow embedding of the C source: machine
integers become Nat with explicit reduction modulo 2^32 (or 2^64, or the
relevant bit-field width) exactly where the C performs modular arithmetic,
external collaborators (intercept predicates, host port reads, guest-physical
copies, the instruction emulator) become explicit function parameters, and
observable side effects (host port accesses, guest copies, diagnostics,
domain crash, shutdown-deferral release, synchronous hand-off) become an
explicit event list returned alongside the new state.
-/

/-- Modelled from the spec and the public ioreq header (not part of this
file): capacity of the buffered ring, a fixed slot-count constant.  511
eight-byte slots plus the two ring pointers fill the shared page. -/
def IOREQ_BUFFER_SLOT_NUM : Nat := 511

/-- Modelled from the spec (direction read). -/
def IOREQ_READ : Nat := 1

/-- Modelled from the spec (direction write). -/
def IOREQ_WRITE : Nat := 0

/-- Modelled from the spec: request-slot protocol state Idle. -/
def STATE_IOREQ_NONE : Nat := 0

/-- Modelled from the spec: request-slot protocol state Ready. -/
def STATE_IOREQ_READY : Nat := 1

/-- Modelled from the spec: request-slot protocol state ResponseReady. -/
def STATE_IORESP_READY : Nat := 3

/-- Modelled from the spec: request kind port I/O (IOREQ_TYPE_PIO in the
public header; renamed here). -/
def IoreqTypePio : Nat := 0

/-- Modelled from the spec: request kind time-offset update. -/
def IoreqTypeTimeoffset : Nat := 7

/-- Modelled from the spec: request kind invalidate-mapcache. -/
def IoreqTypeInvalidate : Nat := 8

/-- Unsigned 32-bit subtraction `a - b` as the C performs it on the ring
pointers, for `a, b` representing uint32 values. -/
def sub32 (a b : Nat) : Nat :=
  (a + 4294967296 - b % 4294967296) % 4294967296

/-- The canonical I/O request record (ioreq_t), fields as in the shared
header: `addr`, `data`, `count`, `size` are 64-bit, `state`, `dir`, `df`,
`type` are small integers, `data_is_ptr` is the value-is-pointer flag. -/
structure Ioreq where
  addr : Nat
  data : Nat
  count : Nat
  size : Nat
  state : Nat
  data_is_ptr : Bool
  dir : Nat
  df : Nat
  type : Nat
  io_count : Nat
  deriving DecidableEq, Repr

/-- One compact buffered record (buf_ioreq_t): 8-bit type, 1-bit dir,
2-bit log2-size code, 20-bit address, 32-bit data. -/
structure BufIoreq where
  type : Nat
  dir : Nat
  size : Nat
  addr : Nat
  data : Nat
  deriving DecidableEq, Repr

/-- The shared buffered-ring page (buffered_iopage_t): two uint32 ring
pointers and the slot array, modelled as a total function on slot index. -/
structure BufferedIopage where
  read_pointer : Nat
  write_pointer : Nat
  buf_ioreq : Nat → BufIoreq

/-- The size switch of hvm_buffered_io_send: maps a request width to the
2-bit size code and the two-slot flag qw (none on the diagnosed default). -/
def sizeCode (s : Nat) : Option (Nat × Nat) :=
  if s = 1 then some (0, 0)
  else if s = 2 then some (1, 0)
  else if s = 4 then some (2, 0)
  else if s = 8 then some (3, 1)
  else none

/-- hvm_buffered_io_send: attempt to enqueue a request on the buffered
ring.  Returns the C result (1 becomes true, 0 becomes false) and the ring
state after the call.  The spin lock and the write barrier order effects
that this sequential model renders atomically. -/
def hvm_buffered_io_send (p : Ioreq) (pg : BufferedIopage) :
    Bool × BufferedIopage :=
  if p.addr > 0xfffff ∨ p.data_is_ptr = true ∨ p.count ≠ 1 then
    (false, pg)
  else
    match sizeCode p.size with
    | none => (false, pg)
    | some sq =>
      let bp : BufIoreq :=
        { type := p.type % 256, dir := p.dir % 2, size := sq.1,
          addr := p.addr % 1048576, data := p.data % 4294967296 }
      if sub32 pg.write_pointer pg.read_pointer ≥
           IOREQ_BUFFER_SLOT_NUM - sq.2 then
        (false, pg)
      else
        let low := pg.write_pointer % IOREQ_BUFFER_SLOT_NUM
        let slots1 : Nat → BufIoreq :=
          fun i => if i = low then bp else pg.buf_ioreq i
        let slots2 : Nat → BufIoreq :=
          if sq.2 = 1 then
            let high := (pg.write_pointer + 1) % 4294967296 %
              IOREQ_BUFFER_SLOT_NUM
            let bph : BufIoreq :=
              { bp with data := p.data / 4294967296 % 4294967296 }
            fun i => if i = high then bph else slots1 i
          else slots1
        (true,
          { read_pointer := pg.read_pointer,
            write_pointer :=
              (pg.write_pointer + (if sq.2 = 1 then 2 else 1)) % 4294967296,
            buf_ioreq := slots2 })

/-- An all-zero buffered slot, the initial content of the ring array. -/
def bp0 : BufIoreq := { type := 0, dir := 0, size := 0, addr := 0, data := 0 }

/-- An empty ring: both pointers zero, all slots zeroed. -/
def pg0 : BufferedIopage :=
  { read_pointer := 0, write_pointer := 0, buf_ioreq := fun _ => bp0 }

/-- A ring with no free slot (occupancy equals the capacity). -/
def pgFull : BufferedIopage :=
  { read_pointer := 0, write_pointer := IOREQ_BUFFER_SLOT_NUM,
    buf_ioreq := fun _ => bp0 }

/-- A concrete buffered-eligible write request of width 1. -/
def wReq : Ioreq :=
  { addr := 0x80, data := 0xab, count := 1, size := 1, state := 1,
    data_is_ptr := false, dir := 0, df := 0, type := 1, io_count := 0 }

/-- A concrete buffered-eligible request of width 8 (two-slot record). -/
def wReq8 : Ioreq :=
  { addr := 0x90, data := 0x123456789abcdef0, count := 1, size := 8,
    state := 1, data_is_ptr := false, dir := 0, df := 0, type := 1,
    io_count := 0 }

/-- A concrete read-direction request that meets every other
buffered-eligibility condition. -/
def readReq : Ioreq :=
  { addr := 0x100, data := 5, count := 1, size := 4, state := 1,
    data_is_ptr := false, dir := 1, df := 0, type := 1, io_count := 0 }

/-- Observable side effects of the modelled operations: diagnostics
(gdprintk/printk), domain_crash, vcpu_end_shutdown_deferral, the
synchronous hand-off (hvm_send_assist_req), the opaque emulator calls of
handle_mmio, and the host-port / guest-physical accesses of the
passthrough interceptor. -/
inductive Ev where
  | log
  | crash
  | deferralRelease
  | handoff
  | emulate
  | inject
  | writeback
  | portRead (port width : Nat)
  | portWrite (port width val : Nat)
  | copyToGuest (dest val width : Nat)
  | copyFromGuest (src width : Nat)
  deriving DecidableEq, Repr

/-- Outcome of the external one-instruction emulator consumed by
handle_mmio: X86EMUL_UNHANDLEABLE, X86EMUL_EXCEPTION together with the
pending flag, or any other outcome. -/
inductive EmulRc where
  | unhandleable
  | exception (pending : Bool)
  | other
  deriving DecidableEq, Repr

/-- Per-virtual-CPU state touched by this file: the request slot of the
shared page and the hvm_vcpu I/O progress flags. -/
structure Vcpu where
  slot : Ioreq
  io_in_progress : Bool
  io_completed : Bool
  io_data : Nat
  mmio_in_progress : Bool
  deriving DecidableEq, Repr

/-- handle_mmio: one instruction's emulation through the opaque external
emulator (parameter rc).  On an unhandleable outcome it logs and returns
0 before the writeback and before the mmio_in_progress update; otherwise
it injects a pending exception when applicable, commits the writeback,
copies io_in_progress into mmio_in_progress and returns 1. -/
def handle_mmio (rc : EmulRc) (v : Vcpu) : Vcpu × Nat × List Ev :=
  match rc with
  | EmulRc.unhandleable => (v, 0, [Ev.emulate, Ev.log])
  | EmulRc.exception pending =>
    ({ v with mmio_in_progress := v.io_in_progress }, 1,
      if pending then [Ev.emulate, Ev.inject, Ev.writeback]
      else [Ev.emulate, Ev.writeback])
  | EmulRc.other =>
    ({ v with mmio_in_progress := v.io_in_progress }, 1,
      [Ev.emulate, Ev.writeback])

/-- hvm_io_assist: consume a fulfilled request.  If the slot is not in
ResponseReady state it logs, crashes the domain and jumps to the exit
label without clearing the slot; otherwise it clears the state to Idle,
updates the I/O progress flags, stores a completed read's data and
possibly re-enters handle_mmio.  Every path ends by releasing the
deferred-shutdown hold.  The read barrier between observing the state
and reading the payload has no effect in this sequential model. -/
def hvm_io_assist (rc : EmulRc) (v : Vcpu) : Vcpu × List Ev :=
  let p := v.slot
  if p.state ≠ STATE_IORESP_READY then
    (v, [Ev.log, Ev.crash, Ev.deferralRelease])
  else
    let v1 : Vcpu := { v with slot := { p with state := STATE_IOREQ_NONE } }
    let r :=
      if v1.io_in_progress then
        let v2 : Vcpu := { v1 with io_in_progress := false }
        if p.dir = IOREQ_READ ∧ p.data_is_ptr = false then
          let v3 : Vcpu := { v2 with io_completed := true, io_data := p.data }
          if v3.mmio_in_progress then
            let hm := handle_mmio rc v3
            (hm.1, hm.2.2)
          else (v3, ([] : List Ev))
        else (v2, ([] : List Ev))
      else (v1, ([] : List Ev))
    (r.1, r.2 ++ [Ev.deferralRelease])

/-- The request record send_pio_req writes into the per-VCPU slot: the
state field is left as found (only the listed fields are assigned) and
io_count is incremented in place. -/
def pio_ioreq (v : Vcpu) (port count size value dir df : Nat)
    (value_is_ptr : Bool) : Ioreq :=
  { addr := port, data := value, count := count, size := size,
    state := v.slot.state, data_is_ptr := value_is_ptr, dir := dir,
    df := df, type := IoreqTypePio, io_count := v.slot.io_count + 1 }

/-- send_pio_req: populate the slot (warning if one is already pending),
then either consume it through the opaque port intercept predicate and
hvm_io_assist, or hand it off to the external consumer
(hvm_send_assist_req, an external collaborator modelled as the handoff
event). -/
def send_pio_req (portio_intercept : Ioreq → Bool) (rc : EmulRc) (v : Vcpu)
    (port count size value dir df : Nat) (value_is_ptr : Bool) :
    Vcpu × List Ev :=
  let warn : List Ev :=
    if v.slot.state ≠ STATE_IOREQ_NONE then [Ev.log] else []
  let p := pio_ioreq v port count size value dir df value_is_ptr
  let v1 : Vcpu := { v with slot := p }
  if portio_intercept p then
    let v2 : Vcpu := { v1 with slot := { p with state := STATE_IORESP_READY } }
    let r := hvm_io_assist rc v2
    (r.1, warn ++ r.2)
  else
    (v1, warn ++ [Ev.handoff])

/-- The request record send_mmio_req writes into the per-VCPU slot. -/
def mmio_ioreq (v : Vcpu) (typ gpa count size value dir df : Nat)
    (value_is_ptr : Bool) : Ioreq :=
  { addr := gpa, data := value, count := count, size := size,
    state := v.slot.state, data_is_ptr := value_is_ptr, dir := dir,
    df := df, type := typ, io_count := v.slot.io_count + 1 }

/-- send_mmio_req: populate the slot, then either consume it through the
mmio intercept or the buffered intercept (both opaque collaborators) and
hvm_io_assist, or hand it off to the external consumer. -/
def send_mmio_req (mmio_intercept buffered_intercept : Ioreq → Bool)
    (rc : EmulRc) (v : Vcpu) (typ gpa count size value dir df : Nat)
    (value_is_ptr : Bool) : Vcpu × List Ev :=
  let warn : List Ev :=
    if v.slot.state ≠ STATE_IOREQ_NONE then [Ev.log] else []
  let p := mmio_ioreq v typ gpa count size value dir df value_is_ptr
  let v1 : Vcpu := { v with slot := p }
  if mmio_intercept p || buffered_intercept p then
    let v2 : Vcpu := { v1 with slot := { p with state := STATE_IORESP_READY } }
    let r := hvm_io_assist rc v2
    (r.1, warn ++ r.2)
  else
    (v1, warn ++ [Ev.handoff])

/-- The zero-filled request record built by send_timeoffset_req. -/
def timeoffset_ioreq (timeoff : Nat) : Ioreq :=
  { addr := 0, data := timeoff, count := 1, size := 8,
    state := STATE_IOREQ_READY, data_is_ptr := false, dir := IOREQ_WRITE,
    df := 0, type := IoreqTypeTimeoffset, io_count := 0 }

/-- send_timeoffset_req: a zero offset returns immediately; otherwise a
stack-local record is built and offered to the buffered ring only, with a
printk reporting the update lost when the ring rejects it. -/
def send_timeoffset_req (timeoff : Nat) (pg : BufferedIopage) :
    BufferedIopage × List Ev :=
  if timeoff = 0 then (pg, [])
  else
    let r := hvm_buffered_io_send (timeoffset_ioreq timeoff) pg
    if r.1 then (r.2, []) else (r.2, [Ev.log])

/-- A virtual CPU with an idle zeroed slot and clear I/O flags. -/
def v0 : Vcpu :=
  { slot := { addr := 0, data := 0, count := 0, size := 0, state := 0,
              data_is_ptr := false, dir := 0, df := 0, type := 0,
              io_count := 0 },
    io_in_progress := false, io_completed := false, io_data := 0,
    mmio_in_progress := false }

/-- A concrete request with a width outside {1,2,4,8}. -/
def badSizeReq : Ioreq :=
  { addr := 0x80, data := 0xab, count := 1, size := 3, state := 1,
    data_is_ptr := false, dir := 0, df := 0, type := 1, io_count := 0 }

/-- A guest-to-host port mapping entry (g2m_ioport, consumed
read-only): gport is the guest range start, mport the host range start,
np the number of ports. -/
structure G2MIoport where
  gport : Nat
  mport : Nat
  np : Nat
  deriving DecidableEq, Repr

/-- The linear scan of dpci_ioport_intercept: the first entry whose
range [gport, gport + np) contains the guest port (unsigned int
arithmetic on the range end). -/
def g2mLookup : List G2MIoport → Nat → Option G2MIoport
  | [], _ => none
  | g :: rest, gp =>
    if g.gport ≤ gp ∧ gp < (g.gport + g.np) % 4294967296 then some g
    else g2mLookup rest gp

/-- The host (machine) port computed on a match:
(guest_port - range_start) + host_range_start, as an unsigned int. -/
def dpci_mport (gport : Nat) (g : G2MIoport) : Nat :=
  (gport - g.gport + g.mport) % 4294967296

/-- The loop of dpci_ioport_read.  remaining counts the iterations
left, k is the iteration index (the C loop variable i equals k * size),
data is the current value of the record's data field.  inval gives the
value returned by the k-th host port read; copyOk tells whether
hvm_copy_to_guest_phys succeeds at a destination.  Mirrors the source
order: read the port, assign the result to p->data, and only then use
p->data + i as the guest-physical copy destination; a copy failure logs
and aborts the loop; a width outside {1,2,4} logs and returns before
any port read. -/
def dpciReadLoop (mport size : Nat) (dip : Bool) (inval : Nat → Nat)
    (copyOk : Nat → Bool) : Nat → Nat → Nat → Nat × List Ev
  | 0, _, data => (data, [])
  | remaining + 1, k, data =>
    if size = 1 ∨ size = 2 ∨ size = 4 then
      let z := inval k % 2 ^ (8 * size)
      if dip then
        let dest := (z + k * size) % 18446744073709551616
        if copyOk dest then
          let r := dpciReadLoop mport size dip inval copyOk remaining
            (k + 1) z
          (r.1, Ev.portRead mport size :: Ev.copyToGuest dest z size :: r.2)
        else
          (z, [Ev.portRead mport size, Ev.copyToGuest dest z size, Ev.log])
      else
        let r := dpciReadLoop mport size dip inval copyOk remaining
          (k + 1) z
        (r.1, Ev.portRead mport size :: r.2)
    else
      (data, [Ev.log])

/-- dpci_ioport_read: run the loop (i from 0 below count * size in
steps of size, so count iterations for a positive size and none for
size zero) and return the record with its final data field plus the
event trace. -/
def dpci_ioport_read (mport : Nat) (inval : Nat → Nat)
    (copyOk : Nat → Bool) (p : Ioreq) : Ioreq × List Ev :=
  let iters := if p.size = 0 then 0 else p.count
  let r := dpciReadLoop mport p.size p.data_is_ptr inval copyOk iters 0
    p.data
  ({ p with data := r.1 }, r.2)

/-- The loop of dpci_ioport_write: each iteration starts from z_data =
p->data; a pointer-indirected record fetches the low size bytes of
z_data from guest-physical memory at p->data + i (copyFrom, none on
failure, which logs and aborts the loop); then the port is written for
widths 1/2/4 while any other width only logs and the loop continues. -/
def dpciWriteLoop (mport size : Nat) (dip : Bool)
    (copyFrom : Nat → Option Nat) : Nat → Nat → Nat → List Ev
  | 0, _, _ => []
  | remaining + 1, k, pdata =>
    let src := (pdata + k * size) % 18446744073709551616
    if dip then
      match copyFrom src with
      | none => [Ev.copyFromGuest src size, Ev.log]
      | some val =>
        let z := pdata - pdata % 2 ^ (8 * size) + val % 2 ^ (8 * size)
        let wr : List Ev :=
          if size = 1 ∨ size = 2 ∨ size = 4 then
            [Ev.portWrite mport size (z % 2 ^ (8 * size))]
          else [Ev.log]
        Ev.copyFromGuest src size :: wr ++
          dpciWriteLoop mport size dip copyFrom remaining (k + 1) pdata
    else
      let wr : List Ev :=
        if size = 1 ∨ size = 2 ∨ size = 4 then
          [Ev.portWrite mport size (pdata % 2 ^ (8 * size))]
        else [Ev.log]
      wr ++ dpciWriteLoop mport size dip copyFrom remaining (k + 1) pdata

/-- dpci_ioport_write: run the write loop over the count iterations;
the record itself is not modified. -/
def dpci_ioport_write (mport : Nat) (copyFrom : Nat → Option Nat)
    (p : Ioreq) : List Ev :=
  let iters := if p.size = 0 then 0 else p.count
  dpciWriteLoop mport p.size p.data_is_ptr copyFrom iters 0 p.data

/-- dpci_ioport_intercept: scan the guest-to-host port mapping list for
the guest port (the unsigned-int truncation of the record's address);
on a miss return 0 (not handled).  On a match compute the host port and
check permission over [mport, mport + size - 1] (deny: log and return 0
without any host access); otherwise run the read or the write loop, or
only log for a direction that is neither, and return 1 (handled). -/
def dpci_ioport_intercept (table : List G2MIoport)
    (permitted : Nat → Nat → Bool) (inval : Nat → Nat)
    (copyOk : Nat → Bool) (copyFrom : Nat → Option Nat) (p : Ioreq) :
    Nat × Ioreq × List Ev :=
  let gport := p.addr % 4294967296
  match g2mLookup table gport with
  | none => (0, p, [])
  | some g =>
    let mport := dpci_mport gport g
    if permitted mport ((mport + p.size + 4294967295) % 4294967296) =
        false then
      (0, p, [Ev.log])
    else if p.dir = IOREQ_READ then
      let r := dpci_ioport_read mport inval copyOk p
      (1, r.1, r.2)
    else if p.dir = IOREQ_WRITE then
      (1, p, dpci_ioport_write mport copyFrom p)
    else
      (1, p, [Ev.log])

/-- The mapping entry of the spec's passthrough example: guest ports
[0x300, 0x310) mapped to host ports starting at 0x3F0. -/
def g2mEntry : G2MIoport := { gport := 0x300, mport := 0x3F0, np := 0x10 }

/-- A width-1 read of guest port 0x305, not pointer-indirected. -/
def dpciReq : Ioreq :=
  { addr := 0x305, data := 0, count := 1, size := 1, state := 1,
    data_is_ptr := false, dir := 1, df := 0, type := 0, io_count := 0 }

/-- A passthrough request whose direction is neither read nor write. -/
def badDirReq : Ioreq :=
  { addr := 0x305, data := 0, count := 1, size := 1, state := 1,
    data_is_ptr := false, dir := 2, df := 0, type := 0, io_count := 0 }

/-- A pointer-indirected read-direction passthrough request: count 2,
width 1, original data pointer 0x1000. -/
def ptrReadReq : Ioreq :=
  { addr := 0x305, data := 0x1000, count := 2, size := 1, state := 1,
    data_is_ptr := true, dir := 1, df := 0, type := 0, io_count := 0 }

lemma sizeCode_qw {s : Nat} {sq : Nat × Nat} (h : sizeCode s = some sq) :
    sq.2 = 0 ∨ sq.2 = 1 := by
  unfold sizeCode at h
  split_ifs at h <;> simp_all [Prod.ext_iff] <;> omega

lemma ring_slot_indices_ne {wp : Nat} (hw : wp < 4294967296) :
    wp % IOREQ_BUFFER_SLOT_NUM ≠
      (wp + 1) % 4294967296 % IOREQ_BUFFER_SLOT_NUM := by
  simp only [IOREQ_BUFFER_SLOT_NUM]
  rcases Nat.lt_or_ge (wp + 1) 4294967296 with h | h
  · rw [Nat.mod_eq_of_lt h]
    omega
  · have hwp : wp = 4294967295 := by omega
    subst hwp
    decide

/-- C1: a buffered-eligible write request (address below 2^20, not
pointer-indirected, count 1, width in {1,2,4,8}) is enqueued by
hvm_buffered_io_send exactly when the ring's free-slot count, capacity
minus the pointer difference, is at least the record's slot requirement
(two slots for width 8, one otherwise); on failure the ring is returned
unchanged. -/
theorem hvm_buffered_io_send_enqueues_iff_space (p : Ioreq)
    (pg : BufferedIopage) (hdir : p.dir = IOREQ_WRITE)
    (haddr : p.addr ≤ 0xfffff) (hptr : p.data_is_ptr = false)
    (hcnt : p.count = 1)
    (hsz : p.size = 1 ∨ p.size = 2 ∨ p.size = 4 ∨ p.size = 8) :
    ((hvm_buffered_io_send p pg).1 = true ↔
      IOREQ_BUFFER_SLOT_NUM - sub32 pg.write_pointer pg.read_pointer ≥
        (if p.size = 8 then 2 else 1)) ∧
    ((hvm_buffered_io_send p pg).1 = false →
      (hvm_buffered_io_send p pg).2 = pg) := by
  have hguard : ¬(p.addr > 0xfffff ∨ p.data_is_ptr = true ∨ p.count ≠ 1) := by
    simp [hptr, hcnt]
    omega
  rcases hsz with h | h | h | h <;>
  · unfold hvm_buffered_io_send
    rw [if_neg hguard]
    simp only [sizeCode, h, IOREQ_BUFFER_SLOT_NUM]
    norm_num
    split_ifs with hc <;> simp_all <;> omega

/-- C1 witness: the theorem applied to a concrete width-1 write request
and the empty ring. -/
theorem hvm_buffered_io_send_enqueues_iff_space_witness :
    ((hvm_buffered_io_send wReq pg0).1 = true ↔
      IOREQ_BUFFER_SLOT_NUM - sub32 pg0.write_pointer pg0.read_pointer ≥
        (if wReq.size = 8 then 2 else 1)) ∧
    ((hvm_buffered_io_send wReq pg0).1 = false →
      (hvm_buffered_io_send wReq pg0).2 = pg0) :=
  hvm_buffered_io_send_enqueues_iff_space wReq pg0 (by decide) (by decide)
    (by decide) (by decide) (by decide)

/-- C2: hvm_buffered_io_send preserves the bounded-occupancy invariant:
if the unsigned difference of the 32-bit ring pointers is at most the
capacity before the call, it still is afterwards, whether the enqueue
succeeds or fails. -/
theorem hvm_buffered_io_send_preserves_occupancy (p : Ioreq)
    (pg : BufferedIopage) (hw : pg.write_pointer < 4294967296)
    (hr : pg.read_pointer < 4294967296)
    (hocc : sub32 pg.write_pointer pg.read_pointer ≤ IOREQ_BUFFER_SLOT_NUM) :
    sub32 (hvm_buffered_io_send p pg).2.write_pointer
        (hvm_buffered_io_send p pg).2.read_pointer ≤
      IOREQ_BUFFER_SLOT_NUM := by
  unfold hvm_buffered_io_send
  split
  · exact hocc
  · split
    · exact hocc
    · rename_i sq heq
      split
      · exact hocc
      · rename_i hns
        rcases sizeCode_qw heq with hq | hq <;>
        · simp only [hq] at hns ⊢
          simp only [sub32, IOREQ_BUFFER_SLOT_NUM] at hns hocc ⊢
          norm_num at hns ⊢
          omega

/-- C2 witness: the theorem applied to a concrete request and the empty
ring. -/
theorem hvm_buffered_io_send_preserves_occupancy_witness :
    sub32 (hvm_buffered_io_send wReq pg0).2.write_pointer
        (hvm_buffered_io_send wReq pg0).2.read_pointer ≤
      IOREQ_BUFFER_SLOT_NUM :=
  hvm_buffered_io_send_preserves_occupancy wReq pg0 (by decide) (by decide)
    (by decide)

/-- C3: an 8-byte buffered-eligible request either fails with the ring
completely unchanged, or succeeds advancing the write pointer by exactly
two, storing the low 32 bits of the data at slot index write_pointer mod
capacity and the high 32 bits at slot index (write_pointer + 1) mod
capacity; the write pointer is never advanced by one. -/
theorem hvm_buffered_io_send_qword_two_slots (p : Ioreq)
    (pg : BufferedIopage) (hsz : p.size = 8) (haddr : p.addr ≤ 0xfffff)
    (hptr : p.data_is_ptr = false) (hcnt : p.count = 1)
    (hw : pg.write_pointer < 4294967296)
    (hd : p.data < 18446744073709551616) :
    (hvm_buffered_io_send p pg = (false, pg) ∨
     ((hvm_buffered_io_send p pg).1 = true ∧
      (hvm_buffered_io_send p pg).2.write_pointer =
        (pg.write_pointer + 2) % 4294967296 ∧
      (hvm_buffered_io_send p pg).2.read_pointer = pg.read_pointer ∧
      ((hvm_buffered_io_send p pg).2.buf_ioreq
          (pg.write_pointer % IOREQ_BUFFER_SLOT_NUM)).data =
        p.data % 4294967296 ∧
      ((hvm_buffered_io_send p pg).2.buf_ioreq
          ((pg.write_pointer + 1) % 4294967296 %
            IOREQ_BUFFER_SLOT_NUM)).data =
        p.data / 4294967296)) ∧
    (hvm_buffered_io_send p pg).2.write_pointer ≠
      (pg.write_pointer + 1) % 4294967296 := by
  have hguard : ¬(p.addr > 0xfffff ∨ p.data_is_ptr = true ∨ p.count ≠ 1) := by
    simp [hptr, hcnt]
    omega
  have hdiv : p.data / 4294967296 < 4294967296 := by omega
  by_cases hc : sub32 pg.write_pointer pg.read_pointer ≥
      IOREQ_BUFFER_SLOT_NUM - 1
  · have heq : hvm_buffered_io_send p pg = (false, pg) := by
      unfold hvm_buffered_io_send
      rw [if_neg hguard]
      simp [sizeCode, hsz, hc]
    rw [heq]
    refine ⟨Or.inl rfl, ?_⟩
    simp only []
    omega
  · constructor
    · right
      unfold hvm_buffered_io_send
      rw [if_neg hguard]
      simp only [sizeCode, hsz]
      norm_num
      split_ifs with h2
      · exfalso
        simp only [IOREQ_BUFFER_SLOT_NUM] at hc h2
        omega
      · simp [ring_slot_indices_ne hw, Nat.mod_eq_of_lt hdiv]
    · unfold hvm_buffered_io_send
      rw [if_neg hguard]
      simp only [sizeCode, hsz]
      norm_num
      split_ifs with h2
      · show pg.write_pointer ≠ (pg.write_pointer + 1) % 4294967296
        omega
      · show (pg.write_pointer + 2) % 4294967296 ≠
          (pg.write_pointer + 1) % 4294967296
        omega

/-- C3 witness: the theorem applied to a concrete 8-byte request and the
empty ring. -/
theorem hvm_buffered_io_send_qword_two_slots_witness :
    (hvm_buffered_io_send wReq8 pg0 = (false, pg0) ∨
     ((hvm_buffered_io_send wReq8 pg0).1 = true ∧
      (hvm_buffered_io_send wReq8 pg0).2.write_pointer =
        (pg0.write_pointer + 2) % 4294967296 ∧
      (hvm_buffered_io_send wReq8 pg0).2.read_pointer = pg0.read_pointer ∧
      ((hvm_buffered_io_send wReq8 pg0).2.buf_ioreq
          (pg0.write_pointer % IOREQ_BUFFER_SLOT_NUM)).data =
        wReq8.data % 4294967296 ∧
      ((hvm_buffered_io_send wReq8 pg0).2.buf_ioreq
          ((pg0.write_pointer + 1) % 4294967296 %
            IOREQ_BUFFER_SLOT_NUM)).data =
        wReq8.data / 4294967296)) ∧
    (hvm_buffered_io_send wReq8 pg0).2.write_pointer ≠
      (pg0.write_pointer + 1) % 4294967296 :=
  hvm_buffered_io_send_qword_two_slots wReq8 pg0 (by decide) (by decide)
    (by decide) (by decide) (by decide) (by decide)

/-- C4 counterexample: hvm_buffered_io_send enqueues (returns true for) a
concrete read-direction record that meets the other eligibility
conditions, contradicting the claim that every read-direction record is
rejected by it. -/
theorem hvm_buffered_io_send_accepts_read_counterexample :
    (hvm_buffered_io_send readReq pg0).1 = true := by decide

/-- C4 amended: hvm_buffered_io_send never inspects the direction field;
a read-direction record that satisfies the remaining buffered-eligibility
conditions is enqueued whenever the free slots suffice, with its
direction bit copied into the stored record — filtering out
read-direction records is left entirely to the caller. -/
theorem hvm_buffered_io_send_ignores_direction (p : Ioreq)
    (pg : BufferedIopage) (hdir : p.dir = IOREQ_READ)
    (haddr : p.addr ≤ 0xfffff) (hptr : p.data_is_ptr = false)
    (hcnt : p.count = 1)
    (hsz : p.size = 1 ∨ p.size = 2 ∨ p.size = 4 ∨ p.size = 8)
    (hspace : IOREQ_BUFFER_SLOT_NUM -
        sub32 pg.write_pointer pg.read_pointer ≥
      (if p.size = 8 then 2 else 1)) :
    (hvm_buffered_io_send p pg).1 = true ∧
    ((hvm_buffered_io_send p pg).2.buf_ioreq
        (pg.write_pointer % IOREQ_BUFFER_SLOT_NUM)).dir = IOREQ_READ := by
  have hguard : ¬(p.addr > 0xfffff ∨ p.data_is_ptr = true ∨ p.count ≠ 1) := by
    simp [hptr, hcnt]
    omega
  rcases hsz with h | h | h | h <;>
  · unfold hvm_buffered_io_send
    rw [if_neg hguard]
    simp only [sizeCode, h, IOREQ_BUFFER_SLOT_NUM, IOREQ_READ] at hspace ⊢
    norm_num at hspace ⊢
    split_ifs with hc
    · exfalso
      omega
    · refine ⟨rfl, ?_⟩
      dsimp only
      split_ifs <;> simp_all [hdir, IOREQ_READ]

/-- C4 amended witness: the amended theorem applied to a concrete
read-direction record and the empty ring. -/
theorem hvm_buffered_io_send_ignores_direction_witness :
    (hvm_buffered_io_send readReq pg0).1 = true ∧
    ((hvm_buffered_io_send readReq pg0).2.buf_ioreq
        (pg0.write_pointer % IOREQ_BUFFER_SLOT_NUM)).dir = IOREQ_READ :=
  hvm_buffered_io_send_ignores_direction readReq pg0 (by decide) (by decide)
    (by decide) (by decide) (by decide) (by decide)

lemma hvm_buffered_io_send_bad_size {q : Ioreq}
    (h : ¬(q.size = 1 ∨ q.size = 2 ∨ q.size = 4 ∨ q.size = 8))
    (pg : BufferedIopage) : hvm_buffered_io_send q pg = (false, pg) := by
  push_neg at h
  have hnone : sizeCode q.size = none := by
    unfold sizeCode
    simp [h.1, h.2.1, h.2.2.1, h.2.2.2]
  unfold hvm_buffered_io_send
  split
  · rfl
  · rw [hnone]

lemma hvm_io_assist_slot_size (rc : EmulRc) (v : Vcpu) :
    (hvm_io_assist rc v).1.slot.size = v.slot.size := by
  unfold hvm_io_assist
  dsimp only
  split_ifs <;> cases rc <;> rfl

lemma handle_mmio_no_deferral (rc : EmulRc) (v : Vcpu) :
    ((handle_mmio rc v).2.2.count Ev.deferralRelease) = 0 := by
  cases rc with
  | unhandleable => rfl
  | exception pending => cases pending <;> rfl
  | other => rfl

/-- C5 counterexample: send_pio_req called with width 3 (not in
{1,2,4,8}) still writes the per-VCPU request slot and hands the request
off to the external consumer, contradicting the claim that such a
request is diagnosed and dropped without being dispatched. -/
theorem send_pio_req_no_width_validation_counterexample :
    ((send_pio_req (fun _ => false) EmulRc.other v0
        0x60 1 3 0 0 0 false).1.slot ≠ v0.slot) ∧
    Ev.handoff ∈ (send_pio_req (fun _ => false) EmulRc.other v0
        0x60 1 3 0 0 0 false).2 := by
  decide

/-- C5 amended: neither send_pio_req nor send_mmio_req validates the
width.  For a width outside {1,2,4,8} they still write the full request
record into the per-virtual-CPU slot and dispatch it (the intercept
predicates are consulted, and when they decline, the request is handed
off to the external consumer); the only width check in this file is the
one in hvm_buffered_io_send, which rejects such widths leaving the ring
unchanged. -/
theorem dispatchers_skip_width_validation
    (portio_intercept mmio_intercept buffered_intercept : Ioreq → Bool)
    (rc : EmulRc) (v : Vcpu) (typ port gpa count size value dir df : Nat)
    (value_is_ptr : Bool)
    (hsz : ¬(size = 1 ∨ size = 2 ∨ size = 4 ∨ size = 8)) :
    ((send_pio_req portio_intercept rc v port count size value dir df
        value_is_ptr).1.slot.size = size) ∧
    (portio_intercept (pio_ioreq v port count size value dir df
        value_is_ptr) = false →
      Ev.handoff ∈ (send_pio_req portio_intercept rc v port count size
        value dir df value_is_ptr).2) ∧
    ((send_mmio_req mmio_intercept buffered_intercept rc v typ gpa count
        size value dir df value_is_ptr).1.slot.size = size) ∧
    ((mmio_intercept (mmio_ioreq v typ gpa count size value dir df
        value_is_ptr) = false ∧
      buffered_intercept (mmio_ioreq v typ gpa count size value dir df
        value_is_ptr) = false) →
      Ev.handoff ∈ (send_mmio_req mmio_intercept buffered_intercept rc v
        typ gpa count size value dir df value_is_ptr).2) ∧
    (∀ q : Ioreq, q.size = size → ∀ pg : BufferedIopage,
      hvm_buffered_io_send q pg = (false, pg)) := by
  refine ⟨?_, ?_, ?_, ?_, ?_⟩
  · unfold send_pio_req
    dsimp only
    split_ifs <;> first | (rw [hvm_io_assist_slot_size]; rfl) | rfl
  · intro hni
    unfold send_pio_req
    dsimp only
    rw [hni]
    simp
  · unfold send_mmio_req
    dsimp only
    split_ifs <;> first | (rw [hvm_io_assist_slot_size]; rfl) | rfl
  · intro hni
    unfold send_mmio_req
    dsimp only
    rw [hni.1, hni.2]
    simp
  · intro q hq pg
    apply hvm_buffered_io_send_bad_size
    rw [hq]
    exact hsz

/-- C5 amended witness: the amended theorem applied to concrete inputs
with width 3 and declining intercept predicates. -/
theorem dispatchers_skip_width_validation_witness :
    ((send_pio_req (fun _ => false) EmulRc.other v0
        0x60 1 3 0 0 0 false).1.slot.size = 3) ∧
    (Ev.handoff ∈ (send_pio_req (fun _ => false) EmulRc.other v0
        0x60 1 3 0 0 0 false).2) ∧
    hvm_buffered_io_send badSizeReq pg0 = (false, pg0) :=
  ⟨(dispatchers_skip_width_validation (fun _ => false) (fun _ => false)
      (fun _ => false) EmulRc.other v0 1 0x60 0 1 3 0 0 0 false
      (by decide)).1,
   (dispatchers_skip_width_validation (fun _ => false) (fun _ => false)
      (fun _ => false) EmulRc.other v0 1 0x60 0 1 3 0 0 0 false
      (by decide)).2.1 rfl,
   (dispatchers_skip_width_validation (fun _ => false) (fun _ => false)
      (fun _ => false) EmulRc.other v0 1 0x60 0 1 3 0 0 0 false
      (by decide)).2.2.2.2 badSizeReq rfl pg0⟩

/-- C6: hvm_io_assist releases the deferred-shutdown hold exactly once
on every path, and when the slot state is not ResponseReady it crashes
the domain and leaves the virtual CPU state, in particular the slot,
untouched (the slot is not transitioned to Idle). -/
theorem hvm_io_assist_fatal_and_deferral (rc : EmulRc) (v : Vcpu) :
    ((hvm_io_assist rc v).2.count Ev.deferralRelease = 1) ∧
    (v.slot.state ≠ STATE_IORESP_READY →
      Ev.crash ∈ (hvm_io_assist rc v).2 ∧ (hvm_io_assist rc v).1 = v) := by
  constructor
  · unfold hvm_io_assist
    dsimp only
    split_ifs <;>
      first
        | decide
        | simp [List.count_append, handle_mmio_no_deferral]
  · intro hne
    unfold hvm_io_assist
    rw [if_pos hne]
    exact ⟨by simp, rfl⟩

/-- C6 witness: the theorem applied to a concrete virtual CPU whose slot
is Idle rather than ResponseReady. -/
theorem hvm_io_assist_fatal_and_deferral_witness :
    ((hvm_io_assist EmulRc.other v0).2.count Ev.deferralRelease = 1) ∧
    (Ev.crash ∈ (hvm_io_assist EmulRc.other v0).2 ∧
      (hvm_io_assist EmulRc.other v0).1 = v0) :=
  ⟨(hvm_io_assist_fatal_and_deferral EmulRc.other v0).1,
   (hvm_io_assist_fatal_and_deferral EmulRc.other v0).2 (by decide)⟩

lemma hvm_buffered_io_send_fail_unchanged (p : Ioreq) (pg : BufferedIopage)
    (h : (hvm_buffered_io_send p pg).1 = false) :
    (hvm_buffered_io_send p pg).2 = pg := by
  unfold hvm_buffered_io_send at h ⊢
  revert h
  split
  · intro _
    rfl
  · split
    · intro _
      rfl
    · split
      · intro _
        rfl
      · intro h
        simp at h

/-- C9: send_timeoffset_req with a zero value is a no-op that never
touches the ring; with a nonzero value it attempts the buffered path
only, and when hvm_buffered_io_send fails the ring is left unchanged,
the loss is reported by a single diagnostic, and no retry and no
synchronous hand-off ever occurs (no handoff event on any path). -/
theorem send_timeoffset_req_buffered_only (timeoff : Nat)
    (pg : BufferedIopage) :
    (timeoff = 0 → send_timeoffset_req timeoff pg = (pg, [])) ∧
    (timeoff ≠ 0 →
      (hvm_buffered_io_send (timeoffset_ioreq timeoff) pg).1 = false →
      send_timeoffset_req timeoff pg = (pg, [Ev.log])) ∧
    Ev.handoff ∉ (send_timeoffset_req timeoff pg).2 := by
  refine ⟨?_, ?_, ?_⟩
  · intro h
    simp [send_timeoffset_req, h]
  · intro h hf
    have hu := hvm_buffered_io_send_fail_unchanged (timeoffset_ioreq timeoff)
      pg hf
    simp [send_timeoffset_req, h, hf, hu]
  · unfold send_timeoffset_req
    dsimp only
    split_ifs <;> simp

/-- C9 witness: the theorem applied at value 0 (no-op), at value 5
against a full ring (reported lost, ring unchanged), and at value 5
against the empty ring (no hand-off). -/
theorem send_timeoffset_req_buffered_only_witness :
    send_timeoffset_req 0 pg0 = (pg0, []) ∧
    send_timeoffset_req 5 pgFull = (pgFull, [Ev.log]) ∧
    Ev.handoff ∉ (send_timeoffset_req 5 pg0).2 :=
  ⟨(send_timeoffset_req_buffered_only 0 pg0).1 rfl,
   (send_timeoffset_req_buffered_only 5 pgFull).2.1 (by decide) (by decide),
   (send_timeoffset_req_buffered_only 5 pg0).2.2⟩

/-- C7: when the linear scan matches a mapping entry, the host port is
(guest_port - range_start) + host_range_start, and a denied permission
check over the accessed width [host_port, host_port + size - 1] makes
dpci_ioport_intercept log and return 0 (not handled) with the request
unchanged and no host port access performed. -/
theorem dpci_ioport_intercept_denied_drops (table : List G2MIoport)
    (permitted : Nat → Nat → Bool) (inval : Nat → Nat)
    (copyOk : Nat → Bool) (copyFrom : Nat → Option Nat) (p : Ioreq)
    (g : G2MIoport)
    (hfind : g2mLookup table (p.addr % 4294967296) = some g)
    (hperm : permitted (dpci_mport (p.addr % 4294967296) g)
        ((dpci_mport (p.addr % 4294967296) g + p.size + 4294967295) %
          4294967296) = false) :
    dpci_ioport_intercept table permitted inval copyOk copyFrom p =
      (0, p, [Ev.log]) := by
  unfold dpci_ioport_intercept
  dsimp only
  rw [hfind]
  dsimp only
  rw [hperm]
  simp

/-- C7 witness: the theorem applied to the spec's example: guest ports
[0x300, 0x310) mapped to host 0x3F0, a width-1 read of guest port 0x305
(host port 0x3F5) and an always-denying permission predicate. -/
theorem dpci_ioport_intercept_denied_drops_witness :
    dpci_mport (dpciReq.addr % 4294967296) g2mEntry = 0x3F5 ∧
    dpci_ioport_intercept [g2mEntry] (fun _ _ => false) (fun _ => 7)
        (fun _ => true) (fun _ => none) dpciReq = (0, dpciReq, [Ev.log]) :=
  ⟨by decide,
   dpci_ioport_intercept_denied_drops [g2mEntry] (fun _ _ => false)
     (fun _ => 7) (fun _ => true) (fun _ => none) dpciReq g2mEntry
     (by decide) rfl⟩

/-- C8 evaluation at the failing input: for a pointer-indirected read
(count 2, width 1, original pointer 0x1000) with every host port read
returning 7 and every guest copy succeeding, the code copies the
results to guest-physical addresses 7 and 8 — the just-read port value
plus the byte offset — because p->data is overwritten with the read
value before the destination is computed; no copy ever targets the
original pointer 0x1000. -/
theorem dpci_ioport_read_overwrites_pointer :
    (dpci_ioport_read 0x3F5 (fun _ => 7) (fun _ => true) ptrReadReq).2 =
      [Ev.portRead 0x3F5 1, Ev.copyToGuest 7 7 1,
       Ev.portRead 0x3F5 1, Ev.copyToGuest 8 7 1] ∧
    Ev.copyToGuest 0x1000 7 1 ∉
      (dpci_ioport_read 0x3F5 (fun _ => 7) (fun _ => true) ptrReadReq).2 ∧
    Ev.copyToGuest 0x1001 7 1 ∉
      (dpci_ioport_read 0x3F5 (fun _ => 7) (fun _ => true) ptrReadReq).2 ∧
    (dpci_ioport_read 0x3F5 (fun _ => 7) (fun _ => true) ptrReadReq).1.data
      = 7 := by
  refine ⟨?_, ?_, ?_, ?_⟩ <;> decide

/-- C10: a passthrough access that matches a mapping entry and passes
the permission check but whose direction is neither read nor write
performs no host port access (the only event is the diagnostic) yet
still returns 1 (handled), so it never falls through to the normal
dispatcher. -/
theorem dpci_ioport_intercept_bad_dir_swallowed (table : List G2MIoport)
    (permitted : Nat → Nat → Bool) (inval : Nat → Nat)
    (copyOk : Nat → Bool) (copyFrom : Nat → Option Nat) (p : Ioreq)
    (g : G2MIoport)
    (hfind : g2mLookup table (p.addr % 4294967296) = some g)
    (hperm : permitted (dpci_mport (p.addr % 4294967296) g)
        ((dpci_mport (p.addr % 4294967296) g + p.size + 4294967295) %
          4294967296) = true)
    (hnr : p.dir ≠ IOREQ_READ) (hnw : p.dir ≠ IOREQ_WRITE) :
    dpci_ioport_intercept table permitted inval copyOk copyFrom p =
      (1, p, [Ev.log]) := by
  unfold dpci_ioport_intercept
  dsimp only
  rw [hfind]
  dsimp only
  rw [hperm]
  simp [hnr, hnw]

/-- C10 witness: the theorem applied to a concrete matching width-1
access with direction 2 and an always-granting permission predicate. -/
theorem dpci_ioport_intercept_bad_dir_swallowed_witness :
    dpci_ioport_intercept [g2mEntry] (fun _ _ => true) (fun _ => 7)
        (fun _ => true) (fun _ => none) badDirReq =
      (1, badDirReq, [Ev.log]) :=
  dpci_ioport_intercept_bad_dir_swallowed [g2mEntry] (fun _ _ => true)
    (fun _ => 7) (fun _ => true) (fun _ => none) badDirReq g2mEntry
    (by decide) rfl (by decide) (by decide)
